import Mathlib

/-!
Shallow embedding of `swarm/core.py` (the Swarm orchestration engine):
construction, request building (`get_chat_completion`), the result
normalizer (`handle_function_result`), the tool-call dispatcher
(`handle_tool_calls`), and the blocking (`run`) and streaming
(`run_and_stream`) turn loops, together with theorems settling the
frozen claims about the specification.

Modelling conventions:
- Python dicts of string keys are association lists with Python dict
  semantics: updating an existing key rewrites it in place, a new key is
  appended at the end (`dictSet` / `dictUpdate`).
- Python exceptions are `Except` errors; an uncaught exception aborting a
  call is an `Except.error` result.
- Machine-level details (network client, the `openai` library) are an
  oracle `Client : Request → Except String ClientResult`.
- Context-variable values are modelled as strings.
-/

/-- The hidden parameter name `__CTX_VARS_NAME__ = "context_variables"`
(`core.py` line 18). -/
def ctxVarsName : String := "context_variables"

/-- Context variables: a Python dict from string keys to (string-modelled)
values. -/
def Ctx : Type := List (String × String)

instance : DecidableEq Ctx := by
  unfold Ctx
  infer_instance

/-- Python dict assignment `d[k] = v`: rewrite the key in place if present,
else append it at the end (Python dicts preserve insertion order).  Dict
key lists are duplicate-free, so rewriting the first occurrence is exact. -/
def dictSet (m : List (String × String)) (k v : String) : List (String × String) :=
  match m with
  | [] => [(k, v)]
  | p :: rest => if p.1 = k then (k, v) :: rest else p :: dictSet rest k v

/-- Python `d.update(new)`: per-key last-write-wins, applying the entries of
`new` in order. Models `dict.update` at `core.py` lines 194 and 361. -/
def dictUpdate (m new : List (String × String)) : List (String × String) :=
  List.foldl (fun acc p => dictSet acc p.1 p.2) m new

/-- Dict lookup (no defaulting). -/
def dictLookup (m : List (String × String)) (k : String) : Option String :=
  match m with
  | [] => none
  | p :: rest => if p.1 = k then some p.2 else dictLookup rest k

/-- Does the first char list start with the second? -/
def chStarts : List Char → List Char → Bool
  | _, [] => true
  | [], _ :: _ => false
  | a :: as, b :: bs => a = b && chStarts as bs

/-- Substring containment on char lists. -/
def chContains (hay needle : List Char) : Bool :=
  match hay with
  | [] => chStarts [] needle
  | _ :: rest => chStarts hay needle || chContains rest needle

/-- Python `needle in haystack` for strings: substring containment. Used to
model the (string-typed) test `self.mode in ("gemini")` at `core.py`
lines 155, 186, 344 and 366, which is substring membership, not equality. -/
def pyInStr (needle haystack : String) : Bool :=
  chContains haystack.toList needle.toList

/-- Python truthiness of an optional string: `None` and `""` are falsy. -/
def pyFalsyOpt (o : Option String) : Bool :=
  o = none ∨ o = some ""

/-- Python `a or b` on optional strings: `b` when `a` is falsy, else `a`. -/
def pyOrOpt (a b : Option String) : Option String :=
  if pyFalsyOpt a then b else a

/-! ## JSON values and a model of `json.loads` / `json.dumps`

`core.py` uses `json.loads` on tool-call argument strings (line 164) and on
the re-encoded gemini history content (line 368), and `json.dumps` on the
handoff marker (line 116). The parser below models Python's strict JSON
decoder on the value shapes this development exercises (objects, arrays,
strings with quote/backslash/`n`/`t`/`r` escapes, integers, booleans,
null); `\u` escapes and fractional/exponent number syntax are not modelled
and make a parse fail, which only narrows the set of accepted inputs. -/

/-- JSON values. -/
inductive Json where
  | null
  | boolV (b : Bool)
  | num (n : Int)
  | str (s : String)
  | arr (xs : List Json)
  | obj (kvs : List (String × Json))

/-- Left-brace character, written by code point to keep braces out of
string literals. -/
def lbrace : Char := Char.ofNat 123

/-- Right-brace character. -/
def rbrace : Char := Char.ofNat 125

/-- Apostrophe (single-quote) character. -/
def apos : Char := Char.ofNat 39

/-- JSON whitespace. -/
def isWs (c : Char) : Bool := c = ' ' || c = '\n' || c = '\t' || c = '\r'

/-- Drop leading JSON whitespace. -/
def skipWs : List Char → List Char
  | [] => []
  | c :: rest => if isWs c then skipWs rest else c :: rest

/-- Parse the remainder of a JSON string literal (opening quote already
consumed), handling the escapes named above. -/
def parseJStr (acc : List Char) : List Char → Option (String × List Char)
  | [] => none
  | c :: rest =>
    if c = '"' then some (String.mk acc.reverse, rest)
    else if c = '\\' then
      match rest with
      | [] => none
      | e :: rest2 =>
        if e = '"' then parseJStr ('"' :: acc) rest2
        else if e = '\\' then parseJStr ('\\' :: acc) rest2
        else if e = '/' then parseJStr ('/' :: acc) rest2
        else if e = 'n' then parseJStr ('\n' :: acc) rest2
        else if e = 't' then parseJStr ('\t' :: acc) rest2
        else if e = 'r' then parseJStr ('\r' :: acc) rest2
        else none
    else parseJStr (c :: acc) rest

/-- Split off a maximal run of decimal digits. -/
def spanDigits : List Char → (List Char × List Char)
  | [] => ([], [])
  | c :: rest =>
    if c.isDigit then
      let p := spanDigits rest
      (c :: p.1, p.2)
    else ([], c :: rest)

/-- Numeric value of a digit run. -/
def digitsVal (ds : List Char) : Nat :=
  ds.foldl (fun a c => a * 10 + (c.toNat - 48)) 0

/-- Parse a JSON integer (optional leading minus). -/
def parseJNum : List Char → Option (Json × List Char)
  | [] => none
  | c :: rest =>
    let p := if c = '-' then (true, rest) else (false, c :: rest)
    match spanDigits p.2 with
    | ([], _) => none
    | (ds, r) =>
      some (.num (if p.1 then -(digitsVal ds : Int) else (digitsVal ds : Int)), r)

mutual

/-- Parse one JSON value; `fuel` bounds recursion depth (callers pass the
input length, which always suffices for inputs this development uses). -/
def parseJVal : Nat → List Char → Option (Json × List Char)
  | 0, _ => none
  | fuel + 1, l =>
    match skipWs l with
    | [] => none
    | c :: rest =>
      if c = '"' then (parseJStr [] rest).map (fun p => (.str p.1, p.2))
      else if c = lbrace then
        match skipWs rest with
        | d :: r2 =>
          if d = rbrace then some (.obj [], r2)
          else (parseJMembers fuel (d :: r2)).map (fun p => (.obj p.1, p.2))
        | [] => none
      else if c = '[' then
        match skipWs rest with
        | d :: r2 =>
          if d = ']' then some (.arr [], r2)
          else (parseJItems fuel (d :: r2)).map (fun p => (.arr p.1, p.2))
        | [] => none
      else if chStarts (c :: rest) "null".toList then some (.null, (c :: rest).drop 4)
      else if chStarts (c :: rest) "true".toList then some (.boolV true, (c :: rest).drop 4)
      else if chStarts (c :: rest) "false".toList then some (.boolV false, (c :: rest).drop 5)
      else if c = '-' || c.isDigit then parseJNum (c :: rest)
      else none

/-- Parse a non-empty member list of a JSON object, up to and including the
closing brace. -/
def parseJMembers : Nat → List Char → Option (List (String × Json) × List Char)
  | 0, _ => none
  | fuel + 1, l =>
    match skipWs l with
    | c :: rest =>
      if c = '"' then
        match parseJStr [] rest with
        | some (key, r1) =>
          match skipWs r1 with
          | d :: r2 =>
            if d = ':' then
              match parseJVal fuel r2 with
              | some (v, r3) =>
                match skipWs r3 with
                | e :: r4 =>
                  if e = ',' then
                    (parseJMembers fuel r4).map (fun p => ((key, v) :: p.1, p.2))
                  else if e = rbrace then some ([(key, v)], r4)
                  else none
                | [] => none
              | none => none
            else none
          | [] => none
        | none => none
      else none
    | [] => none

/-- Parse a non-empty item list of a JSON array, up to and including the
closing bracket. -/
def parseJItems : Nat → List Char → Option (List Json × List Char)
  | 0, _ => none
  | fuel + 1, l =>
    match parseJVal fuel l with
    | some (v, r) =>
      match skipWs r with
      | e :: r2 =>
        if e = ',' then (parseJItems fuel r2).map (fun p => (v :: p.1, p.2))
        else if e = ']' then some ([v], r2)
        else none
      | [] => none
    | none => none

end

/-- Model of Python `json.loads`: strict parse of the whole input (only
trailing whitespace allowed). -/
def jsonParse (s : String) : Option Json :=
  match parseJVal (s.length + 1) s.toList with
  | some (v, rest) => if skipWs rest = [] then some v else none
  | none => none

/-- Lookup of a key in a JSON object (Python `parsed["content"]`). -/
def Json.objLookup : Json → String → Option Json
  | .obj kvs, k => (kvs.find? (fun p => p.1 = k)).map (fun p => p.2)
  | _, _ => none

/-- Escape backslash and double-quote for JSON string output. -/
def jsonEscape (s : String) : String :=
  String.mk (s.toList.foldr
    (fun c acc =>
      if c = '"' then '\\' :: '"' :: acc
      else if c = '\\' then '\\' :: '\\' :: acc
      else c :: acc) [])

/-- Model of `json.dumps` on the one-key handoff object
built at `core.py` line 116. -/
def jsonDumpsAssistant (name : String) : String :=
  String.singleton lbrace ++ "\"assistant\": \"" ++ jsonEscape name ++ "\"" ++
    String.singleton rbrace

/-! ## Data model: agents, tool functions, raw tool results

From `.types` (not under `src/`), modelled from the spec, §3 Data Model:
Agent carries name, instructions (string or callable of context
variables), optional model, ordered tool functions, tool-choice
passthrough, parallel-tool-calls flag; Result carries value, optional
handoff agent, context-variable updates.  A tool function is modelled with
its Python-visible name, whether `context_variables` occurs in its
`__code__.co_varnames` (`declaresCtx`), its introspected schema
(property names and required names, see `functionToJson`), and its body
`impl`, which receives the keyword-argument dict (`f(**args)`) and either
returns a raw value or raises.  `RawValue.other none` models a value whose
`str()` rendering raises. -/

mutual

inductive Agent where
  | mk (name : String) (instructions : Sum String (Ctx → String)) (model : Option String)
       (functions : List AgentFn) (tool_choice : Option String) (parallel_tool_calls : Bool)

inductive AgentFn where
  | mk (name : String) (declaresCtx : Bool) (properties : List String)
       (required : List String) (impl : List (String × Json) → FnOut)

inductive FnOut where
  | ok (v : RawValue)
  | exn (e : String)

inductive RawValue where
  | resultV (r : ResultV)
  | agentV (a : Agent)
  | other (rendering : Option String)

inductive ResultV where
  | mk (value : String) (agent : Option Agent) (context_variables : Ctx)

end

def Agent.name : Agent → String
  | .mk n _ _ _ _ _ => n

def Agent.instructions : Agent → Sum String (Ctx → String)
  | .mk _ i _ _ _ _ => i

def Agent.model : Agent → Option String
  | .mk _ _ m _ _ _ => m

def Agent.functions : Agent → List AgentFn
  | .mk _ _ _ fs _ _ => fs

def Agent.tool_choice : Agent → Option String
  | .mk _ _ _ _ tc _ => tc

def Agent.parallel_tool_calls : Agent → Bool
  | .mk _ _ _ _ _ p => p

def AgentFn.name : AgentFn → String
  | .mk n _ _ _ _ => n

def AgentFn.declaresCtx : AgentFn → Bool
  | .mk _ d _ _ _ => d

def AgentFn.properties : AgentFn → List String
  | .mk _ _ ps _ _ => ps

def AgentFn.required : AgentFn → List String
  | .mk _ _ _ r _ => r

def AgentFn.impl : AgentFn → (List (String × Json) → FnOut)
  | .mk _ _ _ _ f => f

def ResultV.value : ResultV → String
  | .mk v _ _ => v

def ResultV.agent : ResultV → Option Agent
  | .mk _ a _ => a

def ResultV.context_variables : ResultV → Ctx
  | .mk _ _ cv => cv

/-- A tool call requested by the model (`ChatCompletionMessageToolCall`,
flattening the nested `function` record into `name`/`arguments`). -/
structure ToolCall where
  id : String
  type : String := "function"
  name : String
  arguments : String
deriving DecidableEq

/-- A history message: one Python dict in the conversation history.  The
fields cover every dict shape `core.py` appends (system/user messages,
openai-style assistant dumps with sender, gemini-style re-encoded
assistant messages, tool-result messages). -/
structure HMsg where
  role : String
  content : Option String := none
  sender : Option String := none
  tool_call_id : Option String := none
  tool_name : Option String := none
  tool_calls : Option (List ToolCall) := none
deriving DecidableEq

/-- `Response` (spec §3 / `.types`): messages appended since call start,
final active agent, final merged context variables. -/
structure Response where
  messages : List HMsg
  agent : Agent
  context_variables : Ctx

/-- The dispatcher's partial response (`Response(messages=[], agent=None,
context_variables=dict())` at `core.py` line 135). -/
structure PartialResp where
  messages : List HMsg
  agent : Option Agent := none
  context_variables : Ctx := []

/-- Python exceptions escaping the dispatcher / normalizer. -/
inductive DispErr where
  /-- `json.loads` of a tool-call arguments string failed (`core.py` 164). -/
  | jsonDecodeError
  /-- Python `TypeError`.  Raised when parsed arguments are not a dict; the
  constructor also stands for the (unreachable) cast error at line 125. -/
  | typeError (msg : String)
  /-- `function_map[name]` with an unregistered name (reachable only when
  the mode matches neither dialect branch, `core.py` 168). -/
  | keyError (name : String)
  /-- The tool function itself raised (`core.py` 172, uncaught). -/
  | fnRaise (e : String)
  /-- `str(result)` raised at line 121; building the handler's error
  message at line 123 interpolates the value again, re-raising the same
  error before the `TypeError` at line 125 can be raised. -/
  | renderRaise
deriving DecidableEq

/-- The result normalizer `Swarm.handle_function_result`
(`core.py` lines 109-125). -/
def handleFunctionResult : RawValue → Except DispErr ResultV
  | .resultV r => .ok r
  | .agentV a => .ok (.mk (jsonDumpsAssistant a.name) (some a) [])
  | .other (some s) => .ok (.mk s none [])
  | .other none => .error .renderRaise

/-! ## Python `str()` rendering of decoded JSON values

The gemini dialect folds tool outcomes into assistant text via the
f-string at `core.py` line 190, which renders the argument dict with
Python `str()`; and `run` re-encodes assistant messages with `str()` at
line 348.  `pyReprStr` models CPython repr of a printable-ASCII string:
single quotes by default, double quotes when the string contains a single
quote but no double quote, escaping backslash, the chosen quote, and
newline/return/tab (other non-printables are not modelled; inputs in this
development are printable). -/

/-- Escape one character for Python string repr with chosen quote `q`. -/
def pyEscapeChar (q c : Char) : List Char :=
  if c = '\\' then ['\\', '\\']
  else if c = q then ['\\', q]
  else if c = '\n' then ['\\', 'n']
  else if c = '\r' then ['\\', 'r']
  else if c = '\t' then ['\\', 't']
  else [c]

/-- CPython `repr` of a string (printable-ASCII fragment). -/
def pyReprStr (s : String) : String :=
  let q := if s.toList.contains apos && !s.toList.contains '"' then '"' else apos
  String.singleton q ++
    String.mk (s.toList.foldr (fun c acc => pyEscapeChar q c ++ acc) []) ++
    String.singleton q

mutual

/-- Python `str()`/`repr` of a decoded JSON value (`None`, `True`,
ints, repr-quoted strings, lists, dicts). -/
def pyReprJson : Json → String
  | .null => "None"
  | .boolV true => "True"
  | .boolV false => "False"
  | .num n => toString n
  | .str s => pyReprStr s
  | .arr xs => "[" ++ pyReprJsonList xs ++ "]"
  | .obj kvs =>
    String.singleton lbrace ++ pyReprJsonPairs kvs ++ String.singleton rbrace

/-- Comma-separated reprs of list elements. -/
def pyReprJsonList : List Json → String
  | [] => ""
  | [x] => pyReprJson x
  | x :: y :: rest => pyReprJson x ++ ", " ++ pyReprJsonList (y :: rest)

/-- Comma-separated `repr(k): repr(v)` pairs of dict entries. -/
def pyReprJsonPairs : List (String × Json) → String
  | [] => ""
  | [(k, v)] => pyReprStr k ++ ": " ++ pyReprJson v
  | (k, v) :: p :: rest =>
    pyReprStr k ++ ": " ++ pyReprJson v ++ ", " ++ pyReprJsonPairs (p :: rest)

end

/-- A context-variable dict as a decoded JSON/Python value (for injection
into an argument dict and for `str()` rendering). -/
def ctxToJson (ctx : Ctx) : Json :=
  .obj (ctx.map (fun p => (p.1, .str p.2)))

/-- Python dict assignment on a decoded JSON object
(`args[__CTX_VARS_NAME__] = context_variables`, `core.py` line 171). -/
def jsonObjSet (kvs : List (String × Json)) (k : String) (v : Json) :
    List (String × Json) :=
  match kvs with
  | [] => [(k, v)]
  | p :: rest => if p.1 = k then (k, v) :: rest else p :: jsonObjSet rest k v

/-! ## Tool call dispatcher (`Swarm.handle_tool_calls`, lines 127-198) -/

/-- `function_map = (dict comprehension)` at line 134: on a name collision
the later registration wins, so lookup searches the reversed list. -/
def fnLookup (functions : List AgentFn) (name : String) : Option AgentFn :=
  functions.reverse.find? (fun f => f.name = name)

/-- Missing-tool message of the tool-result-role family (lines 145-152). -/
def missingToolMsgTuple (tc : ToolCall) : HMsg :=
  { role := "tool", content := some ("Error: Tool " ++ tc.name ++ " not found."),
    tool_call_id := some tc.id, tool_name := some tc.name }

/-- Missing-tool message of the assistant-content family (lines 156-161). -/
def missingToolMsgGemini (tc : ToolCall) : HMsg :=
  { role := "assistant",
    content := some ("Error: Tool " ++ tc.name ++ " not found.") }

/-- The missing-tool message the dispatcher appends, per dialect family
(`core.py` lines 144-161). -/
def missingToolMsg (mode : String) (tc : ToolCall) : HMsg :=
  if mode = "ollama" ∨ mode = "openai" then missingToolMsgTuple tc
  else missingToolMsgGemini tc

/-- Tool-result message of the tool-result-role family (lines 177-184). -/
def toolResultMsgTuple (tc : ToolCall) (res : ResultV) : HMsg :=
  { role := "tool", content := some res.value,
    tool_call_id := some tc.id, tool_name := some tc.name }

/-- Tool-result message of the assistant-content family (lines 187-192):
the f-string renders the tool name, the result value, and `str()` of the
argument dict (including an injected context-variable argument). -/
def toolResultMsgGemini (tc : ToolCall) (res : ResultV)
    (argsForCall : List (String × Json)) : HMsg :=
  { role := "assistant",
    content := some ("Tool " ++ tc.name ++ " returned: " ++ res.value ++
      ". \nTool_call args: " ++ pyReprJson (.obj argsForCall)) }

/-- One iteration of the dispatch loop (lines 138-196), producing what the
iteration contributes: the message(s) it appends, the handoff agent if
the normalized result carried one, and the result's context-variable
updates — or the exception it raises. -/
def processToolCall (mode : String) (functions : List AgentFn) (ctx : Ctx)
    (tc : ToolCall) : Except DispErr (List HMsg × Option Agent × Ctx) :=
  match fnLookup functions tc.name with
  | none =>
    if mode = "ollama" ∨ mode = "openai" then
      .ok ([missingToolMsgTuple tc], none, [])
    else if pyInStr mode "gemini" then
      .ok ([missingToolMsgGemini tc], none, [])
    else
      -- Neither dialect branch matched: Python falls through to the
      -- argument parse and then `function_map[name]` raises `KeyError`.
      match jsonParse tc.arguments with
      | none => .error .jsonDecodeError
      | some _ => .error (.keyError tc.name)
  | some f =>
    match jsonParse tc.arguments with
    | none => .error .jsonDecodeError
    | some (.obj kvs) =>
      let argsForCall :=
        if f.declaresCtx then jsonObjSet kvs ctxVarsName (ctxToJson ctx) else kvs
      match f.impl argsForCall with
      | .exn e => .error (.fnRaise e)
      | .ok raw =>
        match handleFunctionResult raw with
        | .error e => .error e
        | .ok res =>
          let msgs :=
            if mode = "ollama" ∨ mode = "openai" then [toolResultMsgTuple tc res]
            else if pyInStr mode "gemini" then [toolResultMsgGemini tc res argsForCall]
            else []
          .ok (msgs, res.agent, res.context_variables)
    | some _ =>
      -- Parsed arguments are not a dict: the injection / keyword
      -- expansion raises `TypeError`.
      .error (.typeError tc.name)

/-- Folding one iteration's contribution into the partial response: append
the message(s) (lines 145, 156, 177, 187), merge the context-variable
updates (line 194), and replace the handoff candidate when the result
carried an agent (lines 195-196). -/
def applyCallResult (acc : PartialResp)
    (d : List HMsg × Option Agent × Ctx) : PartialResp :=
  { messages := acc.messages ++ d.1,
    agent := if d.2.1.isSome then d.2.1 else acc.agent,
    context_variables := dictUpdate acc.context_variables d.2.2 }

/-- The dispatch loop over the batch, in arrival order. -/
def handleToolCallsGo (mode : String) (functions : List AgentFn) (ctx : Ctx)
    (acc : PartialResp) : List ToolCall → Except DispErr PartialResp
  | [] => .ok acc
  | tc :: rest =>
    match processToolCall mode functions ctx tc with
    | .error e => .error e
    | .ok d => handleToolCallsGo mode functions ctx (applyCallResult acc d) rest

/-- `Swarm.handle_tool_calls` (`core.py` lines 127-198). -/
def handleToolCalls (mode : String) (toolCalls : List ToolCall)
    (functions : List AgentFn) (ctx : Ctx) : Except DispErr PartialResp :=
  handleToolCallsGo mode functions ctx { messages := [] } toolCalls

/-! ## Tool descriptors and request building
(`Swarm.get_chat_completion`, lines 47-107) -/

/-- A tool descriptor as sent to the backend (the
`tool.function.parameters` part that lines 68-72 manipulate: the property
names of the parameters object, and the required-name list). -/
structure ToolDesc where
  name : String
  properties : List String
  required : List String
deriving DecidableEq

/-- Modelled from the spec: `function_to_json` of `util.py` (not under
`src/`) is the introspector capability of spec §6, `describe(function)`,
returning a descriptor whose parameters object holds one property per
declared parameter and whose required list holds the parameter names
without defaults.  The model carries those two name lists on the
function itself. -/
def functionToJson (f : AgentFn) : ToolDesc :=
  { name := f.name, properties := f.properties, required := f.required }

/-- The hiding loop at `core.py` lines 68-72:
`params["properties"].pop(__CTX_VARS_NAME__, None)` deletes the key from
the property dict (no effect when absent), and
`params["required"].remove(__CTX_VARS_NAME__)`, guarded by a membership
test, removes the first occurrence from the required list. -/
def stripCtxFromTool (t : ToolDesc) : ToolDesc :=
  { t with
    properties := t.properties.filter (fun p => p ≠ ctxVarsName),
    required :=
      if ctxVarsName ∈ t.required then t.required.erase ctxVarsName
      else t.required }

/-- `tools = [function_to_json(f) for f in agent.functions]` followed by
the hiding loop (lines 66-72). -/
def buildTools (agent : Agent) : List ToolDesc :=
  (agent.functions.map functionToJson).map stripCtxFromTool

/-- The outbound completion request (`create_params`, lines 77-84).
`model_config` is modelled as extra backend-specific options overlaid onto
the request (entries colliding with the named fields are not modelled). -/
structure Request where
  model : Option String
  messages : List HMsg
  tools : Option (List ToolDesc)
  tool_choice : Option String
  stream : Bool
  parallel_tool_calls : Option Bool := none
  extra : List (String × String) := []

/-- A completion message returned by the backend
(`completion.choices[0].message`). -/
structure AssistantMsg where
  role : String := "assistant"
  content : Option String := none
  tool_calls : Option (List ToolCall) := none
deriving DecidableEq

/-- One streamed tool-call fragment (`delta["tool_calls"][i]`), tagged
with its positional index. -/
structure DeltaTC where
  index : Nat
  id : Option String := none
  type : Option String := none
  fnName : Option String := none
  fnArgs : Option String := none
deriving DecidableEq

/-- One streamed delta fragment (`chunk.choices[0].delta`). -/
structure Delta where
  role : Option String := none
  content : Option String := none
  tool_calls : List DeltaTC := []
deriving DecidableEq

/-- What one `client.chat.completions.create` call yields: a buffered
completion or a stream of delta fragments. -/
inductive ClientResult where
  | completion (msg : AssistantMsg)
  | stream (deltas : List Delta)

/-- The network client collaborator: a request either yields a result or
raises (the error string renders the Python exception). -/
def Client : Type := Request → Except String ClientResult

/-- Instruction resolution (lines 58-62): call the instructions function
with the current context variables when callable, else use the text.  The
`defaultdict(str, ...)` wrapping at line 57 defaults missing keys inside
the callable and is internal to it. -/
def resolveInstructions (agent : Agent) (ctx : Ctx) : String :=
  match agent.instructions with
  | .inl s => s
  | .inr f => f ctx

/-- The configuration-error message raised at lines 75, 101 and 107. -/
def modelConfigErrMsg : String :=
  "Please provide either the agent model name or model_override that is compatible with the current mode."

/-- Errors escaping `get_chat_completion`. -/
inductive CallErr where
  /-- A raised `ValueError` (fatal configuration error). -/
  | valueError (msg : String)
  /-- The client's own exception, propagating uncaught (the second
  `create` call at line 98 is not inside any `try`). -/
  | clientError (e : String)
  /-- An unrecognized mode matches no branch: Python returns `None` and
  the caller crashes on attribute access. -/
  | noneReturned
deriving DecidableEq

/-- `create_params` as first assembled (lines 63, 77-84): system message
prepended to history, stripped tool descriptors (`or None` when empty),
the agent's tool choice, the stream flag, and the `model_config` overlay. -/
def buildBaseRequest (agent : Agent) (history : List HMsg) (ctx : Ctx)
    (modelOverride : Option String) (stream : Bool)
    (modelConfig : List (String × String)) : Request :=
  { model := pyOrOpt modelOverride agent.model,
    messages :=
      { role := "system", content := some (resolveInstructions agent ctx) } :: history,
    tools := if (buildTools agent).isEmpty then none else some (buildTools agent),
    tool_choice := agent.tool_choice, stream := stream,
    extra := modelConfig }

/-- The first request a tool-capable dialect sends (lines 88-90): the base
request, with `parallel_tool_calls` added when the tool list is
non-empty. -/
def tcFirstReq (agent : Agent) (history : List HMsg) (ctx : Ctx)
    (modelOverride : Option String) (stream : Bool)
    (modelConfig : List (String × String)) : Request :=
  let baseReq := buildBaseRequest agent history ctx modelOverride stream modelConfig
  if ¬ (buildTools agent).isEmpty then
    { baseReq with parallel_tool_calls := some agent.parallel_tool_calls }
  else baseReq

/-- The retry request after a first failure (lines 96-97): only `tools`
and `tool_choice` are cleared; everything else, including a
`parallel_tool_calls` entry added for the first attempt, is kept. -/
def tcRetryReq (agent : Agent) (history : List HMsg) (ctx : Ctx)
    (modelOverride : Option String) (stream : Bool)
    (modelConfig : List (String × String)) : Request :=
  { tcFirstReq agent history ctx modelOverride stream modelConfig with
    tools := none, tool_choice := none }

/-- `Swarm.get_chat_completion` (`core.py` lines 47-107).  For the
tool-capable dialects the first failure is caught and the call is retried
once on `tcRetryReq` (lines 92-98); a second failure propagates the
client's own exception (the `except ValueError` arm at line 100 is dead
code).  For the gemini dialect any failure raises the configuration
`ValueError` (lines 103-107); an unrecognized mode matches no branch and
Python returns `None`. -/
def getChatCompletion (mode : String) (client : Client) (agent : Agent)
    (history : List HMsg) (ctx : Ctx) (modelOverride : Option String)
    (stream : Bool) (modelConfig : List (String × String)) :
    Except CallErr ClientResult :=
  if pyFalsyOpt agent.model && pyFalsyOpt modelOverride then
    .error (.valueError modelConfigErrMsg)
  else
    if mode = "ollama" ∨ mode = "openai" then
      match client (tcFirstReq agent history ctx modelOverride stream modelConfig) with
      | .ok r => .ok r
      | .error _ =>
        match client (tcRetryReq agent history ctx modelOverride stream modelConfig) with
        | .ok r => .ok r
        | .error e2 => .error (.clientError e2)
    else if mode = "gemini" then
      match client (buildBaseRequest agent history ctx modelOverride stream modelConfig) with
      | .ok r => .ok r
      | .error _ => .error (.valueError modelConfigErrMsg)
    else .error .noneReturned

/-! ## Construction (`Swarm.__init__`, lines 21-45) -/

/-- How `self.client` ends up configured. -/
inductive ClientCfg where
  /-- The caller passed a (truthy) client object. -/
  | provided
  /-- `OpenAI(api_key="ollama", base_url="http://localhost:11434/v1")`. -/
  | ollamaDefault
  /-- `OpenAI(api_key=GEMINI_API_KEY, base_url=...)`. -/
  | geminiDefault (key : String)
  /-- `OpenAI()`. -/
  | openaiDefault
deriving DecidableEq

/-- The constructed engine state (`self.mode`, `self.client`). -/
structure SwarmCfg where
  mode : String
  client : Option ClientCfg
deriving DecidableEq

/-- `Swarm.__init__` (`core.py` lines 21-45): empty mode raises
immediately; with no client passed, the three recognized modes configure a
default client and gemini additionally requires a key; any other
non-empty mode falls through the `if`/`elif` chain, leaving
`self.client = None` with no error. -/
def swarmInit (client : Option ClientCfg) (mode : String)
    (geminiApiKey : String) : Except String SwarmCfg :=
  if mode = "" then .error "Please set mode (e.g., openai, gemini, ollama)."
  else if client.isSome then .ok { mode := mode, client := client }
  else if mode = "ollama" then .ok { mode := mode, client := some .ollamaDefault }
  else if mode = "gemini" then
    if geminiApiKey ≠ "" then
      .ok { mode := mode, client := some (.geminiDefault geminiApiKey) }
    else .error "Please provide GEMINI_API_KEY !"
  else if mode = "openai" then .ok { mode := mode, client := some .openaiDefault }
  else .ok { mode := mode, client := none }

/-! ## The gemini history re-encoding (`run`, lines 344-350)

For gemini, `run` stores the assistant message as a dict whose content is
`str(json.loads(message.model_dump_json())).replace(sq, dq).replace("None",
"null")` where `sq`/`dq` are the single/double quote characters: the
Python `str()` rendering of the dumped message dict with every single
quote replaced by a double quote and every occurrence of `None` replaced
by `null`. -/

/-- Replace every non-overlapping occurrence of `pat` (non-empty)
left-to-right, with fuel bounding the scan. -/
def replaceCharsGo (fuel : Nat) (pat sub l : List Char) : List Char :=
  match fuel with
  | 0 => l
  | f + 1 =>
    match l with
    | [] => []
    | c :: rest =>
      if !pat.isEmpty && chStarts (c :: rest) pat then
        sub ++ replaceCharsGo f pat sub ((c :: rest).drop pat.length)
      else c :: replaceCharsGo f pat sub rest

/-- Model of Python `str.replace` (all occurrences, left-to-right,
non-overlapping). -/
def pyStrReplace (s pat sub : String) : String :=
  String.mk (replaceCharsGo s.length pat.toList sub.toList s.toList)

/-- A requested tool call as it appears in the pydantic dump
(`id` / nested `function` / `type`). -/
def toolCallToJson (tc : ToolCall) : Json :=
  .obj [("id", .str tc.id),
        ("function", .obj [("arguments", .str tc.arguments),
                           ("name", .str tc.name)]),
        ("type", .str tc.type)]

/-- `json.loads(message.model_dump_json())` as a decoded value: the
message fields (the openai library's `ChatCompletionMessage` shape, not
under `src/`) plus the `sender` attribute set at line 336, which the
library's extra-fields-allowed dump serializes after the declared
fields.  Declared fields the model never populates are dumped as null. -/
def msgDumpJson (m : AssistantMsg) (sender : String) : Json :=
  .obj [("content", match m.content with | some c => .str c | none => .null),
        ("refusal", .null),
        ("role", .str m.role),
        ("audio", .null),
        ("function_call", .null),
        ("tool_calls", match m.tool_calls with
          | some tcs => .arr (tcs.map toolCallToJson)
          | none => .null),
        ("sender", .str sender)]

/-- The stored gemini history content (line 348). -/
def geminiStoreContent (m : AssistantMsg) (sender : String) : String :=
  pyStrReplace
    (pyStrReplace (pyReprJson (msgDumpJson m sender)) (String.singleton apos) "\"")
    "None" "null"

/-! ## The turn loops (`Swarm.run` lines 294-375,
`Swarm.run_and_stream` lines 200-292) -/

/-- Python exceptions escaping a run. -/
inductive RunErr where
  /-- `get_chat_completion` raised. -/
  | callErr (e : CallErr)
  /-- `handle_tool_calls` raised. -/
  | dispErr (e : DispErr)
  /-- The completion object had the wrong shape for the chosen path
  (attribute/iteration error). -/
  | attrError
  /-- `history[init_len:][-1]` on an empty slice (line 367). -/
  | indexError
  /-- `json.loads(None)` at line 368: the stored content is `None`. -/
  | contentTypeError
  /-- `json.loads` of the stored content failed (line 368). -/
  | jsonDecodeError
  /-- `parsed["content"]` failed at line 368 (missing key, or a
  non-dict parse, which Python reports as `TypeError`). -/
  | keyError (k : String)
  /-- `.strip()` on a non-string `last_content` (line 369). -/
  | stripAttrError
  /-- Loop bound exhausted.  Unreachable for the dialect branches that
  append a message every iteration; it models Python looping at least
  `max_turns` more times without the history growing. -/
  | fuel
deriving DecidableEq

/-- Python falsiness of `message.tool_calls` (`None` or the empty
list). -/
def pyFalsyToolCalls : Option (List ToolCall) → Bool
  | none => true
  | some [] => true
  | some (_ :: _) => false

/-- The loop-local state.  `callerMessages` and `callerCtx` are the
caller-owned argument objects; `history` and `ctx` are the deep copies
bound at entry (`copy.deepcopy` severs all sharing, so a write to the
copies or to freshly appended messages is modelled as an update of
`history`/`ctx` only). -/
structure LoopSt where
  callerMessages : List HMsg
  callerCtx : Ctx
  history : List HMsg
  ctx : Ctx
  active : Agent

/-- The blocking turn loop (`core.py` lines 322-363).  `fuel` starts at
`max_turns`; the loop condition is checked first, so the fuel bound is
only reached when an iteration appends nothing (unrecognized mode). -/
def runLoop (mode : String) (client : Client) (modelOverride : Option String)
    (modelConfig : List (String × String)) (initLen maxTurns : Nat)
    (executeTools : Bool) : Nat → LoopSt → Except RunErr LoopSt
  | fuel, st =>
    if st.history.length - initLen < maxTurns then
      match fuel with
      | 0 => .error .fuel
      | f + 1 =>
        match getChatCompletion mode client st.active st.history st.ctx
            modelOverride false modelConfig with
        | .error e => .error (.callErr e)
        | .ok (.stream _) => .error .attrError
        | .ok (.completion msg) =>
          -- message.sender = active_agent.name (line 336)
          let senderName := st.active.name
          -- update history (lines 339-350); an unrecognized mode matches
          -- neither branch and appends nothing
          let entry : Option HMsg :=
            if mode = "openai" ∨ mode = "ollama" then
              some { role := msg.role, content := msg.content,
                     sender := some senderName, tool_calls := msg.tool_calls }
            else if pyInStr mode "gemini" then
              some { role := msg.role,
                     content := some (geminiStoreContent msg senderName) }
            else none
          let hist2 := st.history ++ entry.toList
          if pyFalsyToolCalls msg.tool_calls || !executeTools then
            .ok { st with history := hist2 }
          else
            match handleToolCalls mode (msg.tool_calls.getD [])
                st.active.functions st.ctx with
            | .error e => .error (.dispErr e)
            | .ok pr =>
              runLoop mode client modelOverride modelConfig initLen maxTurns
                executeTools f
                { st with history := hist2 ++ pr.messages,
                          ctx := dictUpdate st.ctx pr.context_variables,
                          active := pr.agent.getD st.active }
    else .ok st

/-- The gemini final-message post-processing (`core.py` lines 365-369):
read the last appended message's content, decode it as JSON, extract its
inner `content`, and write the stripped text back.  The slice
`history[init_len:]` copies the list but shares the message dicts, so the
write lands in history's last element. -/
def geminiPostProcess (initLen : Nat) (history : List HMsg) :
    Except RunErr (List HMsg) :=
  match (history.drop initLen).getLast? with
  | none => .error .indexError
  | some last =>
    match last.content with
    | none => .error .contentTypeError
    | some s =>
      match jsonParse s with
      | none => .error .jsonDecodeError
      | some v =>
        match v.objLookup "content" with
        | none => .error (.keyError "content")
        | some (.str c) =>
          .ok (history.dropLast ++ [{ last with content := some c.trim }])
        | some _ => .error .stripAttrError

/-- `Swarm.run` with `stream=False` (`core.py` lines 294-375), returning
the `Response` together with the caller-owned argument objects as left
after the call (for the frame property).  Entry deep-copies `messages`
and `context_variables` (lines 318-319). -/
def runB (mode : String) (client : Client) (agent : Agent)
    (messages : List HMsg) (contextVariables : Ctx)
    (modelOverride : Option String) (modelConfig : List (String × String))
    (maxTurns : Nat) (executeTools : Bool) :
    Except RunErr (Response × List HMsg × Ctx) :=
  let initLen := messages.length
  let st0 : LoopSt :=
    { callerMessages := messages, callerCtx := contextVariables,
      history := messages, ctx := contextVariables, active := agent }
  match runLoop mode client modelOverride modelConfig initLen maxTurns
      executeTools maxTurns st0 with
  | .error e => .error e
  | .ok st =>
    match
      (if pyInStr mode "gemini" then geminiPostProcess initLen st.history
       else .ok st.history) with
    | .error e => .error e
    | .ok hist =>
      .ok ({ messages := hist.drop initLen, agent := st.active,
             context_variables := st.ctx },
           st.callerMessages, st.callerCtx)

/-- `Swarm.run` with `stream=False`, the `Response` alone. -/
def run (mode : String) (client : Client) (agent : Agent)
    (messages : List HMsg) (contextVariables : Ctx)
    (modelOverride : Option String) (modelConfig : List (String × String))
    (maxTurns : Nat) (executeTools : Bool) : Except RunErr Response :=
  (runB mode client agent messages contextVariables modelOverride modelConfig
    maxTurns executeTools).map (fun r => r.1)

/-! ## The streaming loop and its accumulator -/

/-- Accumulator entry for one tool call under construction
(initialized with empty id/type/name/arguments, lines 223-229). -/
structure TCAcc where
  id : String := ""
  type : String := ""
  fnName : String := ""
  fnArgs : String := ""
deriving DecidableEq

/-- The in-progress assistant message (lines 218-230). -/
structure MsgAcc where
  content : String
  sender : String
  role : String
  toolMap : List (Nat × TCAcc)
deriving DecidableEq

/-- Modelled from the spec: one tool-call fragment folded into its
accumulator entry — string fields are concatenated (spec §4.4;
`merge_chunk` lives in `util.py`, not under `src/`). -/
def mergeTC (acc : TCAcc) (d : DeltaTC) : TCAcc :=
  { id := acc.id ++ d.id.getD "", type := acc.type ++ d.type.getD "",
    fnName := acc.fnName ++ d.fnName.getD "",
    fnArgs := acc.fnArgs ++ d.fnArgs.getD "" }

/-- Modelled from the spec: tool-call fragments are keyed by positional
index; a first-seen index is initialized empty before the first
concatenation (spec §4.4). -/
def toolMapMerge (m : List (Nat × TCAcc)) (d : DeltaTC) : List (Nat × TCAcc) :=
  if (m.find? (fun p => p.1 = d.index)).isSome then
    m.map (fun p => if p.1 = d.index then (p.1, mergeTC p.2 d) else p)
  else m ++ [(d.index, mergeTC {} d)]

/-- Modelled from the spec: merging one delta fragment (with `role` and
`sender` already popped, `core.py` lines 249-251) into the in-progress
message — content fragments are concatenated, tool-call fragments merged
per index (spec §4.4). -/
def mergeChunk (acc : MsgAcc) (d : Delta) : MsgAcc :=
  { acc with content := acc.content ++ d.content.getD "",
             toolMap := d.tool_calls.foldl toolMapMerge acc.toolMap }

/-- Insert into an index-sorted list. -/
def insertByIndex (p : Nat × TCAcc) : List (Nat × TCAcc) → List (Nat × TCAcc)
  | [] => [p]
  | q :: rest => if p.1 ≤ q.1 then p :: q :: rest else q :: insertByIndex p rest

/-- Sort accumulator entries by index. -/
def sortByIndex (l : List (Nat × TCAcc)) : List (Nat × TCAcc) :=
  l.foldr insertByIndex []

/-- Completion of the accumulator (lines 254-257): the index-keyed map
becomes an ordered list (spec §4.4: ordered by index), and an empty list
is normalized to `None`. -/
def finalizeToolCalls (m : List (Nat × TCAcc)) : Option (List ToolCall) :=
  match sortByIndex m with
  | [] => none
  | l => some (l.map (fun p =>
      { id := p.2.id, type := p.2.type, name := p.2.fnName,
        arguments := p.2.fnArgs }))

/-- The streaming turn loop (`core.py` lines 216-284).  The message
template at lines 218-230 takes its sender from `agent.name` — the
*input* agent parameter — while the yielded deltas are tagged with
`active_agent.name` (line 247); `role` and `sender` are popped from each
delta before merging, so the template's sender is what the stored message
keeps. -/
def runStreamLoop (mode : String) (client : Client) (inputAgent : Agent)
    (modelOverride : Option String) (modelConfig : List (String × String))
    (initLen maxTurns : Nat) (executeTools : Bool) :
    Nat → LoopSt → Except RunErr LoopSt
  | fuel, st =>
    if st.history.length - initLen < maxTurns then
      match fuel with
      | 0 => .error .fuel
      | f + 1 =>
        let msg0 : MsgAcc :=
          { content := "", sender := inputAgent.name, role := "assistant",
            toolMap := [] }
        match getChatCompletion mode client st.active st.history st.ctx
            modelOverride true modelConfig with
        | .error e => .error (.callErr e)
        | .ok (.completion _) => .error .attrError
        | .ok (.stream deltas) =>
          let merged := deltas.foldl mergeChunk msg0
          let toolCalls := finalizeToolCalls merged.toolMap
          let entry : HMsg :=
            { role := merged.role, content := some merged.content,
              sender := some merged.sender, tool_calls := toolCalls }
          let hist2 := st.history ++ [entry]
          if toolCalls.isNone || !executeTools then
            .ok { st with history := hist2 }
          else
            match handleToolCalls mode (toolCalls.getD [])
                st.active.functions st.ctx with
            | .error e => .error (.dispErr e)
            | .ok pr =>
              runStreamLoop mode client inputAgent modelOverride modelConfig
                initLen maxTurns executeTools f
                { st with history := hist2 ++ pr.messages,
                          ctx := dictUpdate st.ctx pr.context_variables,
                          active := pr.agent.getD st.active }
    else .ok st

/-- `Swarm.run_and_stream` (`core.py` lines 200-292), modelled by the
final `Response` it yields after loop termination (intermediate delta
yields carry no state).  There is no gemini post-processing on this
path.  As with `runB`, the caller-owned argument objects are returned for
the frame property. -/
def runStreamB (mode : String) (client : Client) (agent : Agent)
    (messages : List HMsg) (contextVariables : Ctx)
    (modelOverride : Option String) (modelConfig : List (String × String))
    (maxTurns : Nat) (executeTools : Bool) :
    Except RunErr (Response × List HMsg × Ctx) :=
  let initLen := messages.length
  let st0 : LoopSt :=
    { callerMessages := messages, callerCtx := contextVariables,
      history := messages, ctx := contextVariables, active := agent }
  match runStreamLoop mode client agent modelOverride modelConfig initLen
      maxTurns executeTools maxTurns st0 with
  | .error e => .error e
  | .ok st =>
    .ok ({ messages := st.history.drop initLen, agent := st.active,
           context_variables := st.ctx },
         st.callerMessages, st.callerCtx)

/-- `Swarm.run_and_stream`, the final `Response` alone.  (`Swarm.run`
with `stream=True` returns exactly this generator, lines 306-316.) -/
def runStream (mode : String) (client : Client) (agent : Agent)
    (messages : List HMsg) (contextVariables : Ctx)
    (modelOverride : Option String) (modelConfig : List (String × String))
    (maxTurns : Nat) (executeTools : Bool) : Except RunErr Response :=
  (runStreamB mode client agent messages contextVariables modelOverride
    modelConfig maxTurns executeTools).map (fun r => r.1)

/-! ## Concrete agents and clients used as witnesses -/

/-- A client that is never reached. -/
def nullClient : Client := fun _ => .error "unreachable"

/-- A function-less agent named "A". -/
def agentA : Agent := .mk "A" (.inl "sys") (some "m") [] none true

/-- A function-less agent named "B" (handoff target). -/
def agentB : Agent := .mk "B" (.inl "sysB") (some "mB") [] none true

/-- A tool function returning the Agent reference `agentB` (the handoff
signal). -/
def handoffFn : AgentFn :=
  .mk "handoff" false [] [] (fun _ => .ok (.agentV agentB))

/-- An agent named "A" registering `handoffFn`. -/
def agentAH : Agent := .mk "A" (.inl "sysA") (some "mA") [handoffFn] none true

/-- A streamed fragment requesting a call of `handoff` at index 0. -/
def handoffDelta : Delta :=
  { role := some "assistant",
    tool_calls := [{ index := 0, id := some "1", type := some "function",
                     fnName := some "handoff", fnArgs := some "\x7b\x7d" }] }

/-- A streamed plain-content fragment. -/
def contentDelta : Delta := { role := some "assistant", content := some "hi" }

/-- A requested call of `handoff` with empty argument object. -/
def handoffCall : ToolCall := { id := "1", name := "handoff", arguments := "\x7b\x7d" }

/-- A streaming client: for agent `agentAH`'s model it streams one
tool-call fragment requesting `handoff`; for any other model it streams
plain content. -/
def c4StreamClient : Client := fun req =>
  if req.model = some "mA" then .ok (.stream [handoffDelta])
  else .ok (.stream [contentDelta])

/-- The buffered twin of `c4StreamClient`. -/
def c4BlockClient : Client := fun req =>
  if req.model = some "mA" then
    .ok (.completion { tool_calls := some [handoffCall] })
  else .ok (.completion { content := some "hi" })

/-- An assistant content containing a single-quote character (built by
code point). -/
def c10Content : String := "it" ++ String.singleton apos ++ "s"

/-- A completion whose content is `c10Content` and has no tool calls. -/
def c10Msg : AssistantMsg := { content := some c10Content }

/-- A client returning `c10Msg`. -/
def c10Client : Client := fun _ => .ok (.completion c10Msg)

/-- An agent with one registered tool (so the request carries tools). -/
def c1Agent : Agent :=
  .mk "A" (.inl "sys") (some "m")
    [.mk "f" false ["x"] ["x"] (fun _ => .ok (.other (some "r")))] none true

/-- A client failing every call, with distinguishable errors for the
first (tools present) and second (tools cleared) attempts. -/
def c1BadClient : Client := fun req =>
  .error (if req.tools.isSome then "first failure" else "second failure")

/-- A client returning a plain completion (used for completed-run
witnesses). -/
def plainClient : Client := fun _ => .ok (.completion { content := some "hi" })

/-- A streaming client yielding one plain-content fragment. -/
def c9StreamClient : Client := fun _ => .ok (.stream [contentDelta])

/-- The completed blocking run's output triple for `plainClient`. -/
def c9BlockOut : Response × List HMsg × Ctx :=
  ({ messages := [{ role := "assistant", content := some "hi",
                    sender := some "A" }],
     agent := agentA, context_variables := [] }, [], [])

/-- The completed streaming run's output triple for `c9StreamClient`. -/
def c9StreamOut : Response × List HMsg × Ctx :=
  ({ messages := [{ role := "assistant", content := some "hi",
                    sender := some "A" }],
     agent := agentA, context_variables := [] }, [], [])

/-- A tool function that always returns a `Result` writing `v` under
context key `k`. -/
def mkCtxWriter (n k v : String) : AgentFn :=
  .mk n false [] [] (fun _ => .ok (.resultV (.mk "done" none [(k, v)])))

/-- The argument string of an empty JSON object. -/
def emptyObjStr : String := "\x7b\x7d"

/-- A tool function named "bar" returning a plain string. -/
def barFn : AgentFn := .mk "bar" false [] [] (fun _ => .ok (.other (some "ok")))

/-- A tool function declaring the hidden context-variable parameter, with
it present in both the introspected property names and the required
list. -/
def ctxFnExample : AgentFn :=
  .mk "lookup" true ["query", ctxVarsName] ["query", ctxVarsName]
    (fun _ => .ok (.other (some "")))

/-- An agent registering `ctxFnExample`. -/
def ctxAgentExample : Agent := .mk "C" (.inl "sys") (some "m") [ctxFnExample] none true

/-! ## Helper lemmas -/

theorem dictLookup_dictSet_self (m : List (String × String)) (k v : String) :
    dictLookup (dictSet m k v) k = some v := by
  induction m with
  | nil => simp [dictSet, dictLookup]
  | cons p rest ih =>
    by_cases hp : p.1 = k
    · simp [dictSet, hp, dictLookup]
    · simp [dictSet, hp, dictLookup, ih]

theorem dictLookup_dictSet_ne (m : List (String × String)) (k v k' : String)
    (h : k ≠ k') : dictLookup (dictSet m k v) k' = dictLookup m k' := by
  induction m with
  | nil => simp [dictSet, dictLookup, h]
  | cons p rest ih =>
    by_cases hp : p.1 = k
    · simp [dictSet, hp, dictLookup, h]
    · simp [dictSet, hp, dictLookup, ih]

theorem dictLookup_dictUpdate_not_mem (b : List (String × String))
    (m : List (String × String)) (k : String) (h : ∀ p ∈ b, p.1 ≠ k) :
    dictLookup (dictUpdate m b) k = dictLookup m k := by
  induction b generalizing m with
  | nil => rfl
  | cons q rest ih =>
    have hstep : dictUpdate m (q :: rest) = dictUpdate (dictSet m q.1 q.2) rest := rfl
    rw [hstep, ih _ (fun p hp => h p (List.mem_cons_of_mem _ hp))]
    exact dictLookup_dictSet_ne _ _ _ _ (h q (List.mem_cons_self _ _))

/-- Per-key last-write-wins of `dict.update`: when the overlay binds `k`
(overlays built by the dispatcher have duplicate-free keys), the merged
dict holds the overlay's value. -/
theorem dictLookup_dictUpdate_wins (b : List (String × String))
    (m : List (String × String)) (k w : String)
    (hnd : (b.map Prod.fst).Nodup) (hw : dictLookup b k = some w) :
    dictLookup (dictUpdate m b) k = some w := by
  induction b generalizing m with
  | nil => simp [dictLookup] at hw
  | cons q rest ih =>
    have hstep : dictUpdate m (q :: rest) = dictUpdate (dictSet m q.1 q.2) rest := rfl
    rw [hstep]
    rw [List.map_cons] at hnd
    rcases List.nodup_cons.mp hnd with ⟨hq_notin, hnd'⟩
    by_cases hq : q.1 = k
    · have hw2 : w = q.2 := by
        rw [dictLookup, if_pos hq] at hw
        exact (Option.some.inj hw).symm
      have hrest : ∀ p ∈ rest, p.1 ≠ k := by
        intro p hp hpk
        have hmem : p.1 ∈ rest.map Prod.fst := List.mem_map_of_mem Prod.fst hp
        rw [hpk, ← hq] at hmem
        exact hq_notin hmem
      rw [dictLookup_dictUpdate_not_mem _ _ _ hrest, hq, hw2]
      exact dictLookup_dictSet_self _ _ _
    · have hw2 : dictLookup rest k = some w := by
        rwa [dictLookup, if_neg hq] at hw
      exact ih _ hnd' hw2

/-- Messages accumulated so far are a passive prefix: dispatching from an
accumulator with messages `ms` equals dispatching from an empty-message
accumulator and prepending `ms`. -/
theorem handleToolCallsGo_frame (mode : String) (fs : List AgentFn) (ctx : Ctx)
    (tcs : List ToolCall) (ms : List HMsg) (ag : Option Agent) (cv : Ctx) :
    handleToolCallsGo mode fs ctx ⟨ms, ag, cv⟩ tcs =
      (handleToolCallsGo mode fs ctx ⟨[], ag, cv⟩ tcs).map
        (fun pr => ⟨ms ++ pr.messages, pr.agent, pr.context_variables⟩) := by
  induction tcs generalizing ms ag cv with
  | nil => simp [handleToolCallsGo, Except.map]
  | cons tc rest ih =>
    simp only [handleToolCallsGo]
    cases hd : processToolCall mode fs ctx tc with
    | error e => simp [Except.map]
    | ok d =>
      simp only [applyCallResult, List.nil_append]
      rw [ih]
      conv_rhs => rw [ih]
      cases handleToolCallsGo mode fs ctx
          ⟨[], if d.2.1.isSome then d.2.1 else ag, dictUpdate cv d.2.2⟩ rest with
      | error e => simp [Except.map]
      | ok pr => simp [Except.map, List.append_assoc]

/-- The blocking loop never writes the caller-owned argument objects. -/
theorem runLoop_caller (mode : String) (client : Client) (mo : Option String)
    (mc : List (String × String)) (initLen maxTurns : Nat) (execT : Bool) :
    ∀ (fuel : Nat) (st r : LoopSt),
      runLoop mode client mo mc initLen maxTurns execT fuel st = .ok r →
      r.callerMessages = st.callerMessages ∧ r.callerCtx = st.callerCtx := by
  intro fuel
  induction fuel with
  | zero =>
    intro st r h
    unfold runLoop at h
    split at h
    · exact absurd h (by simp)
    · cases h
      exact ⟨rfl, rfl⟩
  | succ f ih =>
    intro st r h
    unfold runLoop at h
    split at h
    · cases hg : getChatCompletion mode client st.active st.history st.ctx mo false mc with
      | error e => rw [hg] at h; exact absurd h (by simp)
      | ok cr =>
        rw [hg] at h
        cases cr with
        | stream ds => exact absurd h (by simp)
        | completion msg =>
          simp only at h
          split at h
          · cases h
            exact ⟨rfl, rfl⟩
          · cases hx : handleToolCalls mode (msg.tool_calls.getD [])
                st.active.functions st.ctx with
            | error e => rw [hx] at h; exact absurd h (by simp)
            | ok pr =>
              simp only [hx] at h
              have hc := ih _ _ h
              exact hc
    · cases h
      exact ⟨rfl, rfl⟩

/-- The streaming loop never writes the caller-owned argument objects. -/
theorem runStreamLoop_caller (mode : String) (client : Client) (inA : Agent)
    (mo : Option String) (mc : List (String × String))
    (initLen maxTurns : Nat) (execT : Bool) :
    ∀ (fuel : Nat) (st r : LoopSt),
      runStreamLoop mode client inA mo mc initLen maxTurns execT fuel st = .ok r →
      r.callerMessages = st.callerMessages ∧ r.callerCtx = st.callerCtx := by
  intro fuel
  induction fuel with
  | zero =>
    intro st r h
    unfold runStreamLoop at h
    split at h
    · exact absurd h (by simp)
    · cases h
      exact ⟨rfl, rfl⟩
  | succ f ih =>
    intro st r h
    unfold runStreamLoop at h
    split at h
    · cases hg : getChatCompletion mode client st.active st.history st.ctx mo true mc with
      | error e => rw [hg] at h; exact absurd h (by simp)
      | ok cr =>
        rw [hg] at h
        cases cr with
        | completion msg => exact absurd h (by simp)
        | stream ds =>
          simp only at h
          split at h
          · cases h
            exact ⟨rfl, rfl⟩
          · cases hx : handleToolCalls mode
                ((finalizeToolCalls ((ds.foldl mergeChunk
                  { content := "", sender := inA.name, role := "assistant",
                    toolMap := [] }).toolMap)).getD [])
                st.active.functions st.ctx with
            | error e => rw [hx] at h; exact absurd h (by simp)
            | ok pr =>
              simp only [hx] at h
              have hc := ih _ _ h
              exact hc
    · cases h
      exact ⟨rfl, rfl⟩

/-! ## Claim theorems -/

/-- C2 counterexample: constructing with the unrecognized, non-empty mode
"foo" and no client raises nothing — construction succeeds with
`self.client = None` — refuting the claim that a mode identifier that is
not one of the recognized values raises a fatal configuration error at
construction time. -/
theorem c2_counterexample :
    swarmInit none "foo" "" = .ok { mode := "foo", client := none } := by rfl

/-- C2 (amended): an empty mode raises the fatal configuration error at
construction time, and mode "gemini" with no client and no key also
raises at construction; but any other unrecognized non-empty mode is
accepted at construction with no client configured, deferring failure to
later calls. -/
theorem c2_construction (client : Option ClientCfg) (key : String) (m : String)
    (hm : m ≠ "") (hm2 : m ≠ "ollama") (hm3 : m ≠ "gemini") (hm4 : m ≠ "openai") :
    swarmInit client "" key =
      .error "Please set mode (e.g., openai, gemini, ollama)." ∧
    swarmInit none "gemini" "" = .error "Please provide GEMINI_API_KEY !" ∧
    swarmInit none m key = .ok { mode := m, client := none } := by
  refine ⟨by simp [swarmInit], by rfl, ?_⟩
  simp [swarmInit, hm, hm2, hm3, hm4]

/-- C2 witness: the amended construction behavior at concrete inputs. -/
theorem c2_construction_witness :
    (("foo" : String) ≠ "" ∧ ("foo" : String) ≠ "ollama" ∧
     ("foo" : String) ≠ "gemini" ∧ ("foo" : String) ≠ "openai") ∧
    (swarmInit (some .provided) "" "key" =
       .error "Please set mode (e.g., openai, gemini, ollama)." ∧
     swarmInit none "gemini" "" = .error "Please provide GEMINI_API_KEY !" ∧
     swarmInit none "foo" "key" = .ok { mode := "foo", client := none }) :=
  ⟨⟨by decide, by decide, by decide, by decide⟩,
   c2_construction (some .provided) "key" "foo"
     (by decide) (by decide) (by decide) (by decide)⟩

/-- C7: every tool descriptor built for the outbound request
(`buildTools`, the pipeline `get_chat_completion` sends) contains the
hidden context-variable parameter neither among its property names nor in
its required list.  The no-duplicates hypothesis on the required lists
holds for every introspected descriptor because Python parameter names
are unique. -/
theorem c7_ctx_hidden (a : Agent) (t : ToolDesc) (ht : t ∈ buildTools a)
    (hnd : ∀ f ∈ a.functions, (f.required).Nodup) :
    ctxVarsName ∉ t.properties ∧ ctxVarsName ∉ t.required := by
  rcases List.mem_map.mp ht with ⟨t0, ht0, rfl⟩
  rcases List.mem_map.mp ht0 with ⟨f, hf, rfl⟩
  constructor
  · simp [stripCtxFromTool, functionToJson, List.mem_filter]
  · simp only [stripCtxFromTool, functionToJson]
    split
    · exact (hnd f hf).not_mem_erase
    · next h => exact h

/-- C7 witness: the stripped descriptor of a context-declaring function. -/
theorem c7_ctx_hidden_witness :
    ((⟨"lookup", ["query"], ["query"]⟩ : ToolDesc) ∈ buildTools ctxAgentExample ∧
     (∀ f ∈ ctxAgentExample.functions, (f.required).Nodup)) ∧
    (ctxVarsName ∉ (⟨"lookup", ["query"], ["query"]⟩ : ToolDesc).properties ∧
     ctxVarsName ∉ (⟨"lookup", ["query"], ["query"]⟩ : ToolDesc).required) :=
  ⟨⟨by decide, by decide⟩,
   c7_ctx_hidden ctxAgentExample _ (by decide) (by decide)⟩

/-- C8 counterexample: for a value whose string rendering raises
(`RawValue.other none`), the normalizer does not raise the descriptive
type error of line 125 — building the error message at line 123
re-renders the value, re-raising the rendering error first (modelled as
`renderRaise`).  This refutes the claim that a failed rendering raises a
type error naming the offending value. -/
theorem c8_counterexample :
    ¬ ∃ msg, handleFunctionResult (.other none) = .error (.typeError msg) := by
  intro h
  rcases h with ⟨msg, h⟩
  simp [handleFunctionResult] at h

/-- C8 (amended): the normalizer passes a canonical Result through
unchanged; wraps an Agent into a Result whose value is a JSON object
naming that agent and whose agent field is that Agent; returns the string
rendering as the value for any other input whose rendering succeeds; and
when the rendering fails, the original rendering error propagates out of
the handler (its message construction re-renders the value), so the
intended type error is never raised. -/
theorem c8_normalizer (r : ResultV) (a : Agent) (s : String) :
    handleFunctionResult (.resultV r) = .ok r ∧
    handleFunctionResult (.agentV a) =
      .ok (.mk (jsonDumpsAssistant a.name) (some a) []) ∧
    handleFunctionResult (.other (some s)) = .ok (.mk s none []) ∧
    handleFunctionResult (.other none) = .error .renderRaise :=
  ⟨rfl, rfl, rfl, rfl⟩

/-- C5: dispatching a batch whose first call names a function that is not
registered in the active agent's function map executes nothing for that
call, appends exactly one dialect-formatted error message whose content
references the missing name, and processes the remaining calls of the
batch exactly as if they formed the whole batch. -/
theorem c5_missing_tool_skip (mode : String)
    (hmode : mode = "openai" ∨ mode = "ollama" ∨ mode = "gemini")
    (tc : ToolCall) (rest : List ToolCall) (fs : List AgentFn) (ctx : Ctx)
    (hmiss : ∀ f ∈ fs, f.name ≠ tc.name) :
    handleToolCalls mode (tc :: rest) fs ctx =
      (handleToolCalls mode rest fs ctx).map
        (fun pr => ⟨missingToolMsg mode tc :: pr.messages, pr.agent,
                    pr.context_variables⟩) ∧
    (missingToolMsg mode tc).content =
      some ("Error: Tool " ++ tc.name ++ " not found.") := by
  have hlook : fnLookup fs tc.name = none := by
    rw [fnLookup, List.find?_eq_none]
    intro f hf
    simp [hmiss f (List.mem_reverse.mp hf)]
  constructor
  · have hstep : processToolCall mode fs ctx tc =
        .ok ([missingToolMsg mode tc], none, []) := by
      have hg : pyInStr "gemini" "gemini" = true := by decide
      rcases hmode with h | h | h <;> subst h <;>
        simp [processToolCall, hlook, missingToolMsg, hg]
    show handleToolCallsGo mode fs ctx ⟨[], none, []⟩ (tc :: rest) = _
    simp only [handleToolCallsGo, hstep]
    have happ : applyCallResult ⟨[], none, []⟩ ([missingToolMsg mode tc], none, []) =
        ⟨[missingToolMsg mode tc], none, []⟩ := rfl
    rw [happ, handleToolCallsGo_frame]
    show _ = (handleToolCallsGo mode fs ctx ⟨[], none, []⟩ rest).map _
    cases handleToolCallsGo mode fs ctx ⟨[], none, []⟩ rest with
    | error e => rfl
    | ok pr => rfl
  · rcases hmode with h | h | h <;> subst h <;>
      simp [missingToolMsg, missingToolMsgTuple, missingToolMsgGemini]

/-- C5 witness: a two-call batch whose first call names the unregistered
tool "foo" over a function map holding only "bar". -/
theorem c5_missing_tool_skip_witness :
    ((("openai" : String) = "openai" ∨ ("openai" : String) = "ollama" ∨
      ("openai" : String) = "gemini") ∧
     (∀ f ∈ [barFn], f.name ≠ "foo")) ∧
    (handleToolCalls "openai"
        [⟨"1", "function", "foo", emptyObjStr⟩,
         ⟨"2", "function", "bar", emptyObjStr⟩] [barFn] [] =
      (handleToolCalls "openai" [⟨"2", "function", "bar", emptyObjStr⟩] [barFn] []).map
        (fun pr => ⟨missingToolMsg "openai" ⟨"1", "function", "foo", emptyObjStr⟩ ::
                      pr.messages, pr.agent, pr.context_variables⟩) ∧
     (missingToolMsg "openai" ⟨"1", "function", "foo", emptyObjStr⟩).content =
       some ("Error: Tool " ++ "foo" ++ " not found.")) :=
  ⟨⟨Or.inl rfl, by decide⟩,
   c5_missing_tool_skip "openai" (Or.inl rfl) _ _ [barFn] [] (by decide)⟩

/-- C6: two tool results in one dispatched batch that both set context
key `k` leave the later call's value in the batch's merged mapping; and
the run-level merge across successive batches
(`context_variables.update(...)`, line 361) likewise takes the later
batch's value per key (batch mappings carry each key once). -/
theorem c6_last_write_wins (mode : String) (k v1 v2 : String) (ctx : Ctx)
    (id1 id2 : String) (cv b1 b2 : Ctx) (w : String)
    (hnd : (b2.map Prod.fst).Nodup) (hw : dictLookup b2 k = some w) :
    (handleToolCalls mode
        [⟨id1, "function", "w1", emptyObjStr⟩, ⟨id2, "function", "w2", emptyObjStr⟩]
        [mkCtxWriter "w1" k v1, mkCtxWriter "w2" k v2] ctx).map
      (fun pr => dictLookup pr.context_variables k) = .ok (some v2) ∧
    dictLookup (dictUpdate (dictUpdate cv b1) b2) k = some w := by
  constructor
  · have hparse : jsonParse emptyObjStr = some (.obj []) := rfl
    have hl1 : fnLookup [mkCtxWriter "w1" k v1, mkCtxWriter "w2" k v2] "w1" =
        some (mkCtxWriter "w1" k v1) := rfl
    have hl2 : fnLookup [mkCtxWriter "w1" k v1, mkCtxWriter "w2" k v2] "w2" =
        some (mkCtxWriter "w2" k v2) := rfl
    have hdc : ∀ n kk vv, (mkCtxWriter n kk vv).declaresCtx = false :=
      fun _ _ _ => rfl
    have himpl : ∀ n kk vv args, (mkCtxWriter n kk vv).impl args =
        .ok (.resultV (.mk "done" none [(kk, vv)])) := fun _ _ _ _ => rfl
    simp [handleToolCalls, handleToolCallsGo, processToolCall, applyCallResult,
          hparse, hl1, hl2, hdc, himpl, handleFunctionResult,
          ResultV.agent, ResultV.context_variables,
          dictUpdate, dictSet, dictLookup, Except.map]
  · exact dictLookup_dictUpdate_wins b2 (dictUpdate cv b1) k w hnd hw

/-- C6 witness: the last-write-wins merges at concrete inputs. -/
theorem c6_last_write_wins_witness :
    ((([("k", "y")] : List (String × String)).map Prod.fst).Nodup ∧
     dictLookup [("k", "y")] "k" = some "y") ∧
    ((handleToolCalls "openai"
        [⟨"1", "function", "w1", emptyObjStr⟩, ⟨"2", "function", "w2", emptyObjStr⟩]
        [mkCtxWriter "w1" "k" "a", mkCtxWriter "w2" "k" "b"] []).map
      (fun pr => dictLookup pr.context_variables "k") = .ok (some "b") ∧
     dictLookup (dictUpdate (dictUpdate [] [("k", "x")]) [("k", "y")]) "k" =
       some "y") :=
  ⟨⟨by decide, by decide⟩,
   c6_last_write_wins "openai" "k" "a" "b" [] "1" "2" [] [("k", "x")] [("k", "y")] "y"
     (by decide) (by decide)⟩

/-- C1 counterexample: in mode "openai", with a client whose failures are
ordinary exceptions, the second (tool-stripped) attempt's failure
propagates the client's own error — the result is `clientError`, and no
fatal configuration `ValueError` is raised — refuting the claim that a
second failure raises a fatal configuration error. -/
theorem c1_counterexample :
    getChatCompletion "openai" c1BadClient c1Agent [] [] none false [] =
      .error (.clientError "second failure") ∧
    ¬ ∃ msg, getChatCompletion "openai" c1BadClient c1Agent [] [] none false [] =
      .error (.valueError msg) := by
  constructor
  · rfl
  · intro h
    rcases h with ⟨msg, h⟩
    rw [show getChatCompletion "openai" c1BadClient c1Agent [] [] none false [] =
        .error (.clientError "second failure") from rfl] at h
    simp at h

/-- C1 (amended): for the tool-capable dialects a failed first attempt is
retried exactly once on the request with the `tools` and `tool_choice`
fields cleared (a `parallel_tool_calls` field set for the first attempt
is retained), and a second failure propagates the client's own error
rather than a configuration error; for the gemini dialect any invocation
failure immediately raises the fatal configuration error, with no
retry. -/
theorem c1_retry (mode : String) (hmode : mode = "openai" ∨ mode = "ollama")
    (client : Client) (agent : Agent) (history : List HMsg) (ctx : Ctx)
    (mo : Option String) (stream : Bool) (mc : List (String × String))
    (hmodel : (pyFalsyOpt agent.model && pyFalsyOpt mo) = false)
    (e1 : String)
    (hfail : client (tcFirstReq agent history ctx mo stream mc) = .error e1) :
    (getChatCompletion mode client agent history ctx mo stream mc =
      match client (tcRetryReq agent history ctx mo stream mc) with
      | .ok r => .ok r
      | .error e2 => .error (.clientError e2)) ∧
    (tcRetryReq agent history ctx mo stream mc).tools = none ∧
    (tcRetryReq agent history ctx mo stream mc).tool_choice = none ∧
    (tcRetryReq agent history ctx mo stream mc).parallel_tool_calls =
      (tcFirstReq agent history ctx mo stream mc).parallel_tool_calls ∧
    (∀ e, client (buildBaseRequest agent history ctx mo stream mc) = .error e →
      getChatCompletion "gemini" client agent history ctx mo stream mc =
        .error (.valueError modelConfigErrMsg)) := by
  refine ⟨?_, rfl, rfl, rfl, ?_⟩
  · rcases hmode with h | h <;> subst h <;>
      simp [getChatCompletion, hmodel, hfail]
  · intro e he
    simp [getChatCompletion, hmodel, he]

/-- C1 witness: the retry behavior at a concrete failing client. -/
theorem c1_retry_witness :
    ((("openai" : String) = "openai" ∨ ("openai" : String) = "ollama") ∧
     (pyFalsyOpt c1Agent.model && pyFalsyOpt none) = false ∧
     c1BadClient (tcFirstReq c1Agent [] [] none false []) =
       .error "first failure") ∧
    ((getChatCompletion "openai" c1BadClient c1Agent [] [] none false [] =
       match c1BadClient (tcRetryReq c1Agent [] [] none false []) with
       | .ok r => .ok r
       | .error e2 => .error (.clientError e2)) ∧
     (tcRetryReq c1Agent [] [] none false []).tools = none ∧
     (tcRetryReq c1Agent [] [] none false []).tool_choice = none ∧
     (tcRetryReq c1Agent [] [] none false []).parallel_tool_calls =
       (tcFirstReq c1Agent [] [] none false []).parallel_tool_calls ∧
     (∀ e, c1BadClient (buildBaseRequest c1Agent [] [] none false []) = .error e →
       getChatCompletion "gemini" c1BadClient c1Agent [] [] none false [] =
         .error (.valueError modelConfigErrMsg))) :=
  ⟨⟨Or.inl rfl, by rfl, by rfl⟩,
   c1_retry "openai" (Or.inl rfl) c1BadClient c1Agent [] [] none false []
     (by rfl) "first failure" (by rfl)⟩

/-- C3 counterexample: in mode "gemini", `run` with `max_turns=0` does not
return an empty Response — the final-message post-processing indexes the
last element of the empty appended-message slice and the call raises an
IndexError — refuting the claim for every mode. -/
theorem c3_counterexample :
    run "gemini" nullClient agentA [] [] none [] 0 true = .error .indexError := by
  rfl

/-- C3 (amended): for modes "openai" and "ollama", `run` with
`max_turns=0` returns a Response with an empty messages sequence, the
unchanged input agent, and the input context variables; for mode
"gemini" the same call raises an IndexError in the final-message
post-processing (`history[init_len:][-1]` on an empty slice). -/
theorem c3_max_turns_zero (client : Client) (agent : Agent) (msgs : List HMsg)
    (cv : Ctx) (mo : Option String) (mc : List (String × String)) (execT : Bool) :
    run "openai" client agent msgs cv mo mc 0 execT =
      .ok { messages := [], agent := agent, context_variables := cv } ∧
    run "ollama" client agent msgs cv mo mc 0 execT =
      .ok { messages := [], agent := agent, context_variables := cv } ∧
    run "gemini" client agent msgs cv mo mc 0 execT = .error .indexError := by
  have h1 : pyInStr "openai" "gemini" = false := by decide
  have h2 : pyInStr "ollama" "gemini" = false := by decide
  have h3 : pyInStr "gemini" "gemini" = true := by decide
  refine ⟨?_, ?_, ?_⟩ <;>
    simp [run, runB, runLoop, geminiPostProcess, h1, h2, h3, List.drop_length,
          Except.map]

/-- C9: both entry points deep-copy the caller-owned message list and
context-variable mapping at entry and never write to them: whenever a
blocking or streaming run completes, the caller's argument objects still
hold their values from call start. -/
theorem c9_caller_frame (mode : String) (client : Client) (agent : Agent)
    (msgs : List HMsg) (cv : Ctx) (mo : Option String)
    (mc : List (String × String)) (maxT : Nat) (execT : Bool) :
    (∀ r, runB mode client agent msgs cv mo mc maxT execT = .ok r →
        r.2.1 = msgs ∧ r.2.2 = cv) ∧
    (∀ r, runStreamB mode client agent msgs cv mo mc maxT execT = .ok r →
        r.2.1 = msgs ∧ r.2.2 = cv) := by
  constructor
  · intro r h
    simp only [runB] at h
    split at h
    · simp at h
    · rename_i st hL
      split at h
      · simp at h
      · cases h
        exact runLoop_caller mode client mo mc msgs.length maxT execT maxT _ _ hL
  · intro r h
    simp only [runStreamB] at h
    split at h
    · simp at h
    · rename_i st hL
      cases h
      exact runStreamLoop_caller mode client agent mo mc msgs.length maxT execT
        maxT _ _ hL

/-- C9 witness: completed blocking and streaming runs whose caller views
equal the (empty) inputs. -/
theorem c9_caller_frame_witness :
    (runB "openai" plainClient agentA [] [] none [] 5 true = .ok c9BlockOut ∧
     (c9BlockOut.2.1 = [] ∧ c9BlockOut.2.2 = [])) ∧
    (runStreamB "openai" c9StreamClient agentA [] [] none [] 5 true =
       .ok c9StreamOut ∧
     (c9StreamOut.2.1 = [] ∧ c9StreamOut.2.2 = [])) :=
  ⟨⟨rfl, (c9_caller_frame "openai" plainClient agentA [] [] none [] 5 true).1
      c9BlockOut rfl⟩,
   ⟨rfl, (c9_caller_frame "openai" c9StreamClient agentA [] [] none [] 5 true).2
      c9StreamOut rfl⟩⟩

set_option maxRecDepth 40000 in
/-- C10: in gemini mode there is an assistant message content — here one
containing a single-quote character (`c10Content`) — for which the stored
history entry produced by the `str()` plus quote/None substitution
re-encoding is not valid JSON (first conjunct), so `run`'s final-message
post-processing raises while decoding it and the whole call aborts even
though the turn itself succeeded (second conjunct): the post-processing
error branch is reachable. -/
theorem c10_postprocess_reachable :
    jsonParse (geminiStoreContent c10Msg "A") = none ∧
    run "gemini" c10Client agentA [] [] none [] 1 true =
      .error .jsonDecodeError := by
  constructor <;> rfl

/-- C4: evaluation at the failing input.  A streaming run in mode
"openai" from agent "A" whose first turn hands off to agent "B": the
response's final agent is "B", yet the turn-2 assistant message stored in
history carries sender "A" — the message template at line 220 uses
`agent.name`, the input agent, instead of `active_agent.name` — while the
blocking loop (line 336) tags the analogous turn-2 message "B".  The
claim (with spec §4.5 step 3 and the per-delta tagging at line 247) names
the active agent; the streaming loop's stored sender contradicts it. -/
theorem c4_streaming_sender_bug :
    (runStream "openai" c4StreamClient agentAH [] [] none [] 5 true).map
      (fun r => (r.messages.map (fun m => m.sender), r.agent.name)) =
      .ok ([some "A", none, some "A"], "B") ∧
    (run "openai" c4BlockClient agentAH [] [] none [] 5 true).map
      (fun r => (r.messages.map (fun m => m.sender), r.agent.name)) =
      .ok ([some "A", none, some "B"], "B") := by
  constructor <;> rfl
